import Mathlib

/- Shallow embedding of the clock-schematic validator, the clock generator's
   register-catalog checks, and the field-instruction resolver of
   stm32-api-generator:

   * `src/generators/clocks/schematic.rs` (ClockSchematic and its validator),
   * `src/generators/clocks/generator.rs` (ClockGenerator field checks),
   * `src/generators/mod.rs` (ReadWrite field-instruction resolver).

   Embedding conventions:
   * Rust `HashMap<String, T>` values (whose iteration order the program never
     fixes) are embedded as association lists carried in one explicit order;
     entity `name` fields are already populated from their map keys, i.e. the
     embedded schematic is the output of `set_names`.
   * Rust `String` is Lean `String`; byte-wise UTF-8 ordering coincides with
     the code-point ordering used here. `str::contains(char)` and
     `String::to_lowercase` are embedded over the character list (the program
     only feeds them ASCII).
   * `f32` option values (`divisor`, `factor`, `default`) are embedded as
     `Rat`: the program only ever compares them for equality.
   * `u32` quantities are `Nat` with explicit `% 2 ^ 32` where Rust wraps.
   * Fallible functions return `Except String Unit`; a Rust `panic!` /
     `.unwrap()` failure is the `PanicOr.panicked` outcome, which unlike an
     `Err` return is not a value the caller can receive.
   * The external crate `svd_expander` (the register catalog) is modelled per
     the spec's external-interface section: `DeviceSpec` stores fields and
     registers keyed by dotted path; `FieldSpec.address()`/`mask()` are stored
     catalog data; a field's owning register is the field path minus its last
     dotted segment. -/

/-- Total lexicographic comparison of character lists, mirroring Rust's
`str` ordering (byte-wise on UTF-8, which agrees with code-point order). -/
def char_list_le : List Char → List Char → Bool
  | [], _ => true
  | _ :: _, [] => false
  | a :: as, b :: bs => if a = b then char_list_le as bs else decide (a < b)

/-- String comparison used to embed Rust's `Vec<String>::sort()`. -/
def string_le (a b : String) : Bool :=
  char_list_le a.toList b.toList

/-- Insert a string into a sorted list (auxiliary for `sort_strings`). -/
def insert_sorted (s : String) : List String → List String
  | [] => [s]
  | x :: xs => if string_le s x then s :: x :: xs else x :: insert_sorted s xs

/-- Embedding of `Vec<String>::sort()`: insertion sort by `string_le`
(the result, a sorted permutation, is what the Rust stable sort produces). -/
def sort_strings : List String → List String
  | [] => []
  | x :: xs => insert_sorted x (sort_strings xs)

/-- Embedding of `Vec::dedup()`: remove consecutive duplicates. -/
def dedup_adjacent : List String → List String
  | [] => []
  | [x] => [x]
  | x :: y :: rest =>
    if x == y then dedup_adjacent (y :: rest) else x :: dedup_adjacent (y :: rest)

/-- FlashLatencyRange from `schematic.rs` (a frequency range row). -/
structure FlashLatencyRange where
  name : String
  min : Option Nat
  max : Option Nat
  bit_value : Nat
deriving DecidableEq

/-- FlashLatency from `schematic.rs`. -/
structure FlashLatency where
  path : String
  ranges : List FlashLatencyRange
deriving DecidableEq

/-- Pll from `schematic.rs`. -/
structure Pll where
  power : String
  ready : String
deriving DecidableEq

/-- ExternalOscillator from `schematic.rs`. -/
structure ExternalOscillator where
  power : String
  ready : String
deriving DecidableEq

/-- Oscillator from `schematic.rs`. -/
structure Oscillator where
  name : String
  frequency : Nat
  external : Option ExternalOscillator
deriving DecidableEq

/-- MultiplexerInput from `schematic.rs`; `path` is the per-input field path
that `generator.rs` reads via `i.path()`. -/
structure MultiplexerInput where
  name : String
  bit_value : Nat
  «alias» : Option String
  path : String
deriving DecidableEq

/-- Multiplexer from `schematic.rs`. -/
structure Multiplexer where
  name : String
  inputs : List MultiplexerInput
  default : String
  path : String
  is_sys_clk_mux : Bool
deriving DecidableEq

/-- DividerOption from `schematic.rs`; `path` is the per-option field path
that `generator.rs` reads via `i.path()`. -/
structure DividerOption where
  name : String
  divisor : Rat
  bit_value : Nat
  path : String
deriving DecidableEq

/-- Divider from `schematic.rs`. -/
structure Divider where
  name : String
  input : String
  default : Rat
  values : List DividerOption
  path : String
deriving DecidableEq

/-- MultiplierOption from `schematic.rs`; `path` is the per-option field path
that `generator.rs` reads via `i.path()`. -/
structure MultiplierOption where
  name : String
  factor : Rat
  bit_value : Nat
  path : String
deriving DecidableEq

/-- Multiplier from `schematic.rs`. -/
structure Multiplier where
  name : String
  input : String
  default : Rat
  values : List MultiplierOption
  path : String
deriving DecidableEq

/-- Tap from `schematic.rs`. -/
structure Tap where
  name : String
  input : String
  max : Nat
  terminal : Bool
deriving DecidableEq

/-- ClockSchematic from `schematic.rs`, after `set_names` has copied every
map key into its entity's `name` field. -/
structure ClockSchematic where
  sys_clk_mux : String
  flash_latency : FlashLatency
  pll : Option Pll
  oscillators : List Oscillator
  multiplexers : List Multiplexer
  dividers : List Divider
  multipliers : List Multiplier
  taps : List Tap
deriving DecidableEq

/-- ClockComponent from `schematic.rs`. -/
inductive ClockComponent where
  | Oscillator (o : Oscillator)
  | Multiplexer (m : Multiplexer)
  | Divider (d : Divider)
  | Multiplier (m : Multiplier)
  | Tap (t : Tap)

/-- ClockOutputNameSelection from `schematic.rs`. -/
inductive ClockOutputNameSelection where
  | TerminalTapsOnly
  | EverythingExceptTerminalTaps
  | Everything

namespace ClockSchematic

/-- Embedding of `ClockSchematic::get_next`: the immediate successors of a
named node, in the source's chain order (multiplexers, dividers, multipliers,
taps). -/
def get_next (sch : ClockSchematic) (comp_name : String) : List String :=
  ((sch.multiplexers.filter (fun c => c.inputs.any (fun i => i.name == comp_name))).map
      Multiplexer.name)
    ++ ((sch.dividers.filter (fun c => c.input == comp_name)).map Divider.name)
    ++ ((sch.multipliers.filter (fun c => c.input == comp_name)).map Multiplier.name)
    ++ ((sch.taps.filter (fun c => c.input == comp_name)).map Tap.name)

/-- Embedding of `ClockSchematic::list_outputs`. -/
def list_outputs (sch : ClockSchematic) (selection : ClockOutputNameSelection) : List String :=
  let terminal_taps_only := (sch.taps.filter Tap.terminal).map Tap.name
  let everything_except_terminal_taps :=
    sch.oscillators.map Oscillator.name
      ++ sch.multiplexers.map Multiplexer.name
      ++ sch.dividers.map Divider.name
      ++ sch.multipliers.map Multiplier.name
      ++ (sch.taps.filter (fun t => !t.terminal)).map Tap.name
  match selection with
  | .TerminalTapsOnly => terminal_taps_only
  | .EverythingExceptTerminalTaps => everything_except_terminal_taps
  | .Everything => terminal_taps_only ++ everything_except_terminal_taps

/-- The raw concatenation of every declared input reference (the collection
built inside `ClockSchematic::list_inputs` before `sort`/`dedup`). -/
def input_names (sch : ClockSchematic) : List String :=
  (sch.multiplexers.flatMap (fun d => d.inputs.map MultiplexerInput.name))
    ++ sch.dividers.map Divider.input
    ++ sch.multipliers.map Multiplier.input
    ++ sch.taps.map Tap.input

/-- Embedding of `ClockSchematic::list_inputs`: inputs sorted and
deduplicated. -/
def list_inputs (sch : ClockSchematic) : List String :=
  dedup_adjacent (sort_strings sch.input_names)

end ClockSchematic

/-- The permitted characters of `check_valid_names`
(`"abcdefghijklmnopqrstuvwxyz0123456789_"`), held as a character list because
the embedding of `str::contains(char)` is list membership. -/
def allowed_chars : List Char :=
  "abcdefghijklmnopqrstuvwxyz0123456789_".toList

/-- Embedding of Rust's `String::to_lowercase` (character-wise; the program
only feeds it ASCII, where `Char.toLower` agrees with Rust). -/
def to_lowercase (s : String) : String :=
  String.mk (s.toList.map Char.toLower)

/-- The error message template of `check_valid_names`. -/
def name_error (name : String) (ch : Char) : String :=
  "Name '" ++ name ++ "' contains invalid character: '" ++ ch.toString ++ "'"

/-- The inner loop of `check_valid_names`: first character of the lowercased
name that is not in the permitted set. -/
def first_invalid_char (name : String) : Option Char :=
  (to_lowercase name).toList.find? (fun ch => !(allowed_chars.contains ch))

/-- The outer loop of `check_valid_names`: first (name, offending char) pair
in name-list order. -/
def first_invalid_name : List String → Option (String × Char)
  | [] => none
  | name :: rest =>
    match first_invalid_char name with
    | some ch => some (name, ch)
    | none => first_invalid_name rest

/-- The adjacent-duplicate scan of `check_no_duplicate_names` (the
`last_name` loop over the sorted name list). -/
def first_adjacent_dup : List String → Option String
  | x :: y :: rest => if x == y then some y else first_adjacent_dup (y :: rest)
  | _ => none

namespace ClockSchematic

/-- Embedding of `ClockSchematic::check_valid_names`: the names checked are
`list_inputs` followed by `list_outputs(Everything)`; each name is lowercased
before the character test. -/
def check_valid_names (sch : ClockSchematic) : Except String Unit :=
  match first_invalid_name (sch.list_inputs ++ sch.list_outputs .Everything) with
  | some (name, ch) => .error (name_error name ch)
  | none => .ok ()

/-- Embedding of `ClockSchematic::check_no_duplicate_names`. -/
def check_no_duplicate_names (sch : ClockSchematic) : Except String Unit :=
  match first_adjacent_dup (sort_strings (sch.list_outputs .Everything)) with
  | some cur_name => .error ("Duplicate name: " ++ cur_name)
  | none => .ok ()

/-- The offending-input list of `check_all_inputs_exist`. -/
def nonexistent_inputs (sch : ClockSchematic) : List String :=
  (sch.list_inputs).filter (fun i =>
    !((sch.list_outputs .EverythingExceptTerminalTaps).contains i) && i != "off")

/-- Embedding of `ClockSchematic::check_all_inputs_exist`. -/
def check_all_inputs_exist (sch : ClockSchematic) : Except String Unit :=
  if sch.nonexistent_inputs.length > 0 then
    .error ("Nonexistent inputs: " ++ String.intercalate ", " sch.nonexistent_inputs
      ++ " (maybe these are terminal taps?)")
  else .ok ()

/-- The offending-output list of `check_all_outputs_are_used` (kept in
`list_outputs` enumeration order; the source applies no sort or dedup here). -/
def unused_outputs (sch : ClockSchematic) : List String :=
  (sch.list_outputs .EverythingExceptTerminalTaps).filter (fun o =>
    !(sch.list_inputs.contains o))

/-- Embedding of `ClockSchematic::check_all_outputs_are_used`. -/
def check_all_outputs_are_used (sch : ClockSchematic) : Except String Unit :=
  if sch.unused_outputs.length > 0 then
    .error ("Unused outputs: " ++ String.intercalate ", " sch.unused_outputs
      ++ " (maybe these are non-terminal taps?)")
  else .ok ()

/-- The offender list of `check_multiplexer_defaults_exist`. -/
def multiplexers_with_bad_defaults (sch : ClockSchematic) : List String :=
  (sch.multiplexers.filter (fun m =>
    !(m.inputs.any (fun i => i.name == m.default)))).map Multiplexer.name

/-- Embedding of `ClockSchematic::check_multiplexer_defaults_exist`. -/
def check_multiplexer_defaults_exist (sch : ClockSchematic) : Except String Unit :=
  if sch.multiplexers_with_bad_defaults.length > 0 then
    .error ("Multiplexers have default inputs not in their input lists: "
      ++ String.intercalate ", " sch.multiplexers_with_bad_defaults)
  else .ok ()

/-- The offender list of `check_divider_defaults_exist`: dividers with no
values are filtered out first (the default is then used as the sole value). -/
def dividers_with_bad_defaults (sch : ClockSchematic) : List String :=
  (((sch.dividers.filter (fun d => d.values.length > 0)).filter (fun d =>
    !(d.values.any (fun v => v.divisor == d.default)))).map Divider.name)

/-- Embedding of `ClockSchematic::check_divider_defaults_exist`. -/
def check_divider_defaults_exist (sch : ClockSchematic) : Except String Unit :=
  if sch.dividers_with_bad_defaults.length > 0 then
    .error ("Dividers have default values not in their value lists: "
      ++ String.intercalate ", " sch.dividers_with_bad_defaults)
  else .ok ()

/-- The offender list of `check_multiplier_defaults_exist`: multipliers with
no values are filtered out first. -/
def multipliers_with_bad_defaults (sch : ClockSchematic) : List String :=
  (((sch.multipliers.filter (fun m => m.values.length > 0)).filter (fun m =>
    !(m.values.any (fun v => v.factor == m.default)))).map Multiplier.name)

/-- Embedding of `ClockSchematic::check_multiplier_defaults_exist`. -/
def check_multiplier_defaults_exist (sch : ClockSchematic) : Except String Unit :=
  if sch.multipliers_with_bad_defaults.length > 0 then
    .error ("Multipliers have default values not in their value lists: "
      ++ String.intercalate ", " sch.multipliers_with_bad_defaults)
  else .ok ()

/-- Embedding of `ClockSchematic::make_paths`: extend a path by every
successor of its last element; a path with no successor is returned as-is; an
empty path yields no paths. -/
def make_paths (sch : ClockSchematic) (path : List String) : List (List String) :=
  match path.getLast? with
  | some l =>
    match sch.get_next l with
    | [] => [path]
    | next => next.map (fun n => path ++ [n])
  | none => []

/-- The bounded expansion loop of `ClockSchematic::get_paths` (`MAX_DEPTH`
iterations of extending every path). -/
def get_paths_loop (sch : ClockSchematic) : Nat → List (List String) → List (List String)
  | 0, paths => paths
  | n + 1, paths => sch.get_paths_loop n (paths.flatMap sch.make_paths)

/-- Embedding of `ClockSchematic::get_paths`. Note the seed: the source
builds `vec![self.oscillators.keys().collect()]`, ONE path holding every
oscillator name, although its comment says each oscillator starts a path. -/
def get_paths (sch : ClockSchematic) : List (List String) :=
  sch.get_paths_loop 32 [sch.oscillators.map Oscillator.name]

end ClockSchematic

/-- The inner scan of `ClockSchematic::find_loop`: walk the elements after a
chosen start, accumulating them, and stop at the first reoccurrence of the
start. -/
def find_loop_scan (start_name : String) (path_loop : List String) :
    List String → Option (List String)
  | [] => none
  | next_name :: rest =>
    let acc := path_loop ++ [next_name]
    if start_name == next_name then some acc else find_loop_scan start_name acc rest

/-- Embedding of `ClockSchematic::find_loop`: every element except the last
is a candidate start (the source iterates `path.iter().take(path.len() - 1)`);
the first start whose forward scan finds a reoccurrence wins. -/
def find_loop : List String → Option (List String)
  | [] => none
  | [_] => none
  | start_name :: rest =>
    match find_loop_scan start_name [start_name] rest with
    | some path_loop => some path_loop
    | none => find_loop rest

namespace ClockSchematic

/-- Embedding of `ClockSchematic::check_no_loops`: collect a loop from each
expanded path, render with `" -> "`, sort, dedup, and fail if any remain. -/
def check_no_loops (sch : ClockSchematic) : Except String Unit :=
  let loops := sch.get_paths.filterMap find_loop
  let loop_descriptions :=
    dedup_adjacent (sort_strings (loops.map (fun l => String.intercalate " -> " l)))
  if loop_descriptions.length > 0 then
    .error ("Loop(s) detected: " ++ String.intercalate ", " loop_descriptions)
  else .ok ()

/-- Embedding of `ClockSchematic::validate`: the ordered check battery,
stopping at the first failure. -/
def validate (sch : ClockSchematic) : Except String Unit := do
  sch.check_valid_names
  sch.check_no_duplicate_names
  sch.check_all_inputs_exist
  sch.check_all_outputs_are_used
  sch.check_multiplexer_defaults_exist
  sch.check_divider_defaults_exist
  sch.check_multiplier_defaults_exist
  sch.check_no_loops

/-- Embedding of `ClockSchematic::get_all_components`, paired with each
component's name as destructured by `generator.rs`. -/
def get_all_components (sch : ClockSchematic) : List (String × ClockComponent) :=
  (sch.oscillators.map (fun v => (v.name, ClockComponent.Oscillator v)))
    ++ (sch.multiplexers.map (fun v => (v.name, ClockComponent.Multiplexer v)))
    ++ (sch.dividers.map (fun v => (v.name, ClockComponent.Divider v)))
    ++ (sch.multipliers.map (fun v => (v.name, ClockComponent.Multiplier v)))
    ++ (sch.taps.map (fun v => (v.name, ClockComponent.Tap v)))

end ClockSchematic

/-- A directed chain in the schematic's input relation: every element is
followed by one of its `get_next` successors. -/
def chain_step (sch : ClockSchematic) : List String → Bool
  | x :: y :: rest => (sch.get_next x).contains y && chain_step sch (y :: rest)
  | _ => true

/-- A directed cycle in the schematic's input relation: a chain of length at
least two whose last element equals its first. The relation contains only
component names, so the sentinel `"off"` never appears in it. -/
def is_cycle (sch : ClockSchematic) (c : List String) : Bool :=
  match c with
  | x :: _ :: _ => chain_step sch c && (c.getLast? == some x)
  | _ => false

/-- Field metadata returned by the external register catalog
(`svd_expander::FieldSpec`; `address()` and `mask()` are stored catalog data
per the spec's external-interface description). -/
structure FieldSpec where
  address : Nat
  mask : Nat
  offset : Nat
  width : Nat
deriving DecidableEq

/-- Register metadata returned by the external register catalog
(`svd_expander::RegisterSpec`): optional reset value and reset mask. -/
structure RegisterSpec where
  reset_value : Option Nat
  reset_mask : Option Nat
deriving DecidableEq

/-- The external register catalog (`svd_expander::DeviceSpec`), modelled per
the spec as a pure lookup service from dotted paths. -/
structure DeviceSpec where
  fields : List (String × FieldSpec)
  registers : List (String × RegisterSpec)
deriving DecidableEq

namespace DeviceSpec

/-- Catalog field lookup (`DeviceSpec::get_field`; failure modelled as
`none`). -/
def get_field (dev : DeviceSpec) (path : String) : Option FieldSpec :=
  (dev.fields.find? (fun p => p.1 == path)).map Prod.snd

/-- Catalog field lookup returning an option
(`DeviceSpec::try_get_field`). -/
def try_get_field (dev : DeviceSpec) (path : String) : Option FieldSpec :=
  dev.get_field path

/-- Catalog register lookup (`DeviceSpec::get_register`; failure modelled as
`none`). -/
def get_register (dev : DeviceSpec) (path : String) : Option RegisterSpec :=
  (dev.registers.find? (fun p => p.1 == path)).map Prod.snd

end DeviceSpec

/-- Modelled from the spec: `svd_expander`'s `FieldSpec::parent_path` (code
of the external catalog crate, not in this repository) — a field's owning
register is the field's dotted path minus its last segment. -/
def parent_path (path : String) : String :=
  String.mk
    (match path.toList.reverse.dropWhile (fun c => !(c == '.')) with
     | [] => []
     | _ :: rest => rest.reverse)

/-- Largest `u32` (`std::u32::MAX`). -/
def u32_max : Nat := 2 ^ 32 - 1

/-- Modelled from the spec: the lookup-failure message of the external
catalog's `get_field` (a `CatalogLookupError`; its exact text lives in the
external `svd_expander` crate). No claim depends on this string. -/
def catalog_lookup_error (path : String) : String :=
  "CatalogLookupError: " ++ path

/-- The fixed error string of `ClockGenerator::check_valid_field_paths`
(`generator.rs` line 73 hard-codes the name `bogus.field`). -/
def no_field_msg : String := "No field named 'bogus.field' in SVD spec"

namespace ClockGenerator

/-- The field-path collection of `ClockGenerator::check_valid_field_paths`:
per-input paths of multiplexers and per-option paths of dividers and
multipliers, in component order. -/
def input_paths (sch : ClockSchematic) : List String :=
  sch.get_all_components.flatMap (fun c =>
    match c with
    | (_, ClockComponent.Multiplexer m) => m.inputs.map MultiplexerInput.path
    | (_, ClockComponent.Divider d) => d.values.map DividerOption.path
    | (_, ClockComponent.Multiplier m) => m.values.map MultiplierOption.path
    | _ => [])

/-- The lookup loop of `ClockGenerator::check_valid_field_paths`: the first
missing path aborts with the fixed message. -/
def check_paths_loop (dev : DeviceSpec) : List String → Except String Unit
  | [] => .ok ()
  | path :: rest =>
    match dev.try_get_field path with
    | none => .error no_field_msg
    | some _ => check_paths_loop dev rest

/-- Embedding of `ClockGenerator::check_valid_field_paths`. -/
def check_valid_field_paths (dev : DeviceSpec) (sch : ClockSchematic) : Except String Unit :=
  check_paths_loop dev (input_paths sch)

/-- The (path, bit_value, component name) collection of
`ClockGenerator::check_valid_field_input_sizes`. In the source the `match`
lists arms for Multiplexer, Divider, a wildcard `_ => vec![]`, and only THEN
Multiplier: the Multiplier arm sits after the wildcard and is unreachable, so
multiplier options contribute nothing here. -/
def field_vals (sch : ClockSchematic) : List (String × Nat × String) :=
  sch.get_all_components.flatMap (fun c =>
    match c with
    | (name, ClockComponent.Multiplexer m) =>
      m.inputs.map (fun v => (v.path, v.bit_value, name))
    | (name, ClockComponent.Divider d) =>
      d.values.map (fun v => (v.path, v.bit_value, name))
    | _ => [])

/-- Embedding of `ClockGenerator::check_valid_input_size`: the bit-fit check
(`max_val = u32::MAX << (32 - width) >> (32 - width)`, i.e. `2 ^ width - 1`
for the catalog's 1..=32 widths, with `u32` wrap made explicit). -/
def check_valid_input_size (dev : DeviceSpec) (path : String) (bit_value : Nat)
    (component_name : String) : Except String Unit :=
  match dev.get_field path with
  | none => .error (catalog_lookup_error path)
  | some field_spec =>
    let shift := 32 - field_spec.width
    let max_val := ((u32_max * 2 ^ shift) % 2 ^ 32) / 2 ^ shift
    if bit_value > max_val then
      .error ("Bit value '" ++ toString bit_value ++ "' does not fit in "
        ++ toString field_spec.width ++ "-bit field '" ++ path ++ "' ("
        ++ component_name ++ ")")
    else .ok ()

/-- The checking loop of `ClockGenerator::check_valid_field_input_sizes`. -/
def check_sizes_loop (dev : DeviceSpec) : List (String × Nat × String) → Except String Unit
  | [] => .ok ()
  | (path, bit_value, name) :: rest => do
    check_valid_input_size dev path bit_value name
    check_sizes_loop dev rest

/-- Embedding of `ClockGenerator::check_valid_field_input_sizes`. -/
def check_valid_field_input_sizes (dev : DeviceSpec) (sch : ClockSchematic) :
    Except String Unit :=
  check_sizes_loop dev (field_vals sch)

/-- Embedding of `ClockGenerator::validate`: field-path existence, then
bit-fit sizes. -/
def validate (dev : DeviceSpec) (sch : ClockSchematic) : Except String Unit := do
  check_valid_field_paths dev sch
  check_valid_field_input_sizes dev sch

end ClockGenerator

/-- Outcome of a resolver operation whose Rust signature returns a plain
`String`: either the produced instruction text, or a panic (`unwrap` /
`panic!`), which is not a value the caller receives — the type has no
recoverable error channel. -/
inductive PanicOr (α : Type) where
  | panicked (msg : String)
  | ok (val : α)
deriving DecidableEq

/-- Panic message for `.unwrap()` on a failed catalog lookup (the text is
Rust runtime output; only the fact of panicking matters). -/
def unwrap_none_msg : String := "unwrap of failed svd_expander lookup"

/-- Embedding of `mod.rs`'s `itf` helper: interrupt-free suffix. -/
def itf : Bool → String
  | true => "_itf"
  | false => ""

/-- Rust `{:#010x}` formatting of a `u32`: `0x` plus the hex digits
zero-padded to width 8. -/
def fmt_hex32 (n : Nat) : String :=
  let s := String.mk (Nat.toDigits 16 n)
  "0x" ++ String.mk (List.replicate (8 - s.length) '0') ++ s

/-- Rust `{:#034b}` formatting of a `u32`: `0b` plus the binary digits
zero-padded to width 32. -/
def fmt_bin32 (n : Nat) : String :=
  let s := String.mk (Nat.toDigits 2 n)
  "0b" ++ String.mk (List.replicate (32 - s.length) '0') ++ s

/-- The value computed by `reset` in `mod.rs` line 194:
`register_reset_mask & register_reset_val & mask >> offset`. Rust `>>` binds
tighter than `&` and `&` associates left, so this is
`(register_reset_mask & register_reset_val) & (mask >> offset)`. -/
def reset_value_expr (register_reset_mask register_reset_val mask offset : Nat) : Nat :=
  (register_reset_mask &&& register_reset_val) &&& (mask >>> offset)

namespace DeviceSpec

/-- Embedding of `ReadWrite::write_val` for `DeviceSpec`. -/
def write_val (dev : DeviceSpec) (path expr : String) (interrupt_free : Bool) :
    PanicOr String :=
  match dev.get_field path with
  | none => .panicked unwrap_none_msg
  | some field =>
    .ok ("write_val" ++ itf interrupt_free ++ "(" ++ fmt_hex32 field.address ++ ", "
      ++ fmt_bin32 field.mask ++ ", " ++ toString field.offset ++ ", " ++ expr
      ++ ") /* Set " ++ path ++ " = " ++ expr ++ " */")

/-- Embedding of `ReadWrite::write_bit` for `DeviceSpec`. -/
def write_bit (dev : DeviceSpec) (path expr : String) (interrupt_free : Bool) :
    PanicOr String :=
  match dev.get_field path with
  | none => .panicked unwrap_none_msg
  | some field =>
    .ok ("write_bit" ++ itf interrupt_free ++ "(" ++ fmt_hex32 field.address ++ ", "
      ++ fmt_bin32 field.mask ++ ", " ++ toString field.offset ++ ", " ++ expr
      ++ ") /* Set " ++ path ++ " = " ++ expr ++ " */")

/-- Embedding of `ReadWrite::reset` for `DeviceSpec`: looks up the field,
then the owning register's reset metadata (value defaulting to 0, mask to
`u32::MAX`), and emits a `write_val` of `reset_value_expr`. -/
def reset (dev : DeviceSpec) (path : String) (interrupt_free : Bool) :
    PanicOr String :=
  match dev.get_field path with
  | none => .panicked unwrap_none_msg
  | some field =>
    match dev.get_register (parent_path path) with
    | none => .panicked unwrap_none_msg
    | some register =>
      let register_reset_val :=
        match register.reset_value with
        | some rv => rv
        | none => 0
      let register_reset_mask :=
        match register.reset_mask with
        | some rm => rm
        | none => u32_max
      let reset_value :=
        reset_value_expr register_reset_mask register_reset_val field.mask field.offset
      .ok ("write_val" ++ itf interrupt_free ++ "(" ++ fmt_hex32 field.address ++ ", "
        ++ fmt_bin32 field.mask ++ ", " ++ toString field.offset ++ ", "
        ++ toString reset_value ++ ") /* Reset " ++ path ++ " */")

/-- Embedding of `ReadWrite::set_bit` for `DeviceSpec`: panics unless the
field's width is exactly 1. -/
def set_bit (dev : DeviceSpec) (path : String) (interrupt_free : Bool) :
    PanicOr String :=
  match dev.get_field path with
  | none => .panicked unwrap_none_msg
  | some field =>
    if field.width != 1 then
      .panicked "Cannot set single bit for a multi-bit field"
    else
      .ok ("set_bit" ++ itf interrupt_free ++ "(" ++ fmt_hex32 field.address ++ ", "
        ++ fmt_bin32 field.mask ++ ") /* Set " ++ path ++ " */")

/-- Embedding of `ReadWrite::clear_bit` for `DeviceSpec`: panics unless the
field's width is exactly 1. -/
def clear_bit (dev : DeviceSpec) (path : String) (interrupt_free : Bool) :
    PanicOr String :=
  match dev.get_field path with
  | none => .panicked unwrap_none_msg
  | some field =>
    if field.width != 1 then
      .panicked "Cannot clear single bit for a multi-bit field"
    else
      .ok ("clear_bit" ++ itf interrupt_free ++ "(" ++ fmt_hex32 field.address ++ ", "
        ++ fmt_bin32 field.mask ++ ") /* Clear " ++ path ++ " */")

/-- Embedding of `ReadWrite::read_val` for `DeviceSpec`. -/
def read_val (dev : DeviceSpec) (path : String) : PanicOr String :=
  match dev.get_field path with
  | none => .panicked unwrap_none_msg
  | some field =>
    .ok ("read_val(" ++ fmt_hex32 field.address ++ ", " ++ fmt_bin32 field.mask
      ++ ", " ++ toString field.offset ++ ") /* Read " ++ path ++ " */")

/-- Embedding of `ReadWrite::is_set` for `DeviceSpec`. -/
def is_set (dev : DeviceSpec) (path : String) : PanicOr String :=
  match dev.get_field path with
  | none => .panicked unwrap_none_msg
  | some field =>
    .ok ("is_set(" ++ fmt_hex32 field.address ++ ", " ++ fmt_bin32 field.mask
      ++ ") /* Check if " ++ path ++ " is 1 */")

/-- Embedding of `ReadWrite::is_clear` for `DeviceSpec`. -/
def is_clear (dev : DeviceSpec) (path : String) : PanicOr String :=
  match dev.get_field path with
  | none => .panicked unwrap_none_msg
  | some field =>
    .ok ("is_clear(" ++ fmt_hex32 field.address ++ ", " ++ fmt_bin32 field.mask
      ++ ") /* Check if " ++ path ++ " is 0 */")

/-- Embedding of `ReadWrite::wait_for_val` for `DeviceSpec`. -/
def wait_for_val (dev : DeviceSpec) (path expr : String) (max_loops : Nat)
    (interrupt_free : Bool) : PanicOr String :=
  match dev.get_field path with
  | none => .panicked unwrap_none_msg
  | some field =>
    .ok ("wait_for_val" ++ itf interrupt_free ++ "(" ++ fmt_hex32 field.address
      ++ ", " ++ fmt_bin32 field.mask ++ ", " ++ toString field.offset ++ ", "
      ++ expr ++ ", " ++ toString max_loops ++ ") /* Block until " ++ path
      ++ " == " ++ expr ++ " */")

/-- Embedding of `ReadWrite::wait_for_clear` for `DeviceSpec`. -/
def wait_for_clear (dev : DeviceSpec) (path : String) (max_loops : Nat)
    (interrupt_free : Bool) : PanicOr String :=
  match dev.get_field path with
  | none => .panicked unwrap_none_msg
  | some field =>
    .ok ("wait_for_clear" ++ itf interrupt_free ++ "(" ++ fmt_hex32 field.address
      ++ ", " ++ fmt_bin32 field.mask ++ ", " ++ toString max_loops
      ++ ") /* Block until " ++ path ++ " is cleared */")

/-- Embedding of `ReadWrite::wait_for_set` for `DeviceSpec`. -/
def wait_for_set (dev : DeviceSpec) (path : String) (max_loops : Nat)
    (interrupt_free : Bool) : PanicOr String :=
  match dev.get_field path with
  | none => .panicked unwrap_none_msg
  | some field =>
    .ok ("wait_for_set" ++ itf interrupt_free ++ "(" ++ fmt_hex32 field.address
      ++ ", " ++ fmt_bin32 field.mask ++ ", " ++ toString max_loops
      ++ ") /* Block until " ++ path ++ " is set */")

end DeviceSpec

/-- Written-value formula asserted by the spec's round-trip property for
`Reset`, stated from the spec's words for comparison with the source's
`reset_value_expr`: `((reset_mask & reset_value) & mask) >> offset`. -/
def spec_reset_written_value (reset_mask reset_value mask offset : Nat) : Nat :=
  ((reset_mask &&& reset_value) &&& mask) >>> offset

/-- Counterexample schematic for cycle detection: two oscillators, a cycle
`m -> d -> m` hanging off `osc_a`, and `osc_b` feeding a terminal tap. Every
pre-cycle check passes; the seeded path `[osc_a, osc_b]` only ever extends
from `osc_b`, so the cycle is never traversed. -/
def cexC1 : ClockSchematic :=
  { sys_clk_mux := "m"
    flash_latency := { path := "", ranges := [] }
    pll := none
    oscillators := [
      { name := "osc_a", frequency := 8000000, external := none },
      { name := "osc_b", frequency := 1000, external := none }]
    multiplexers := [
      { name := "m"
        inputs := [
          { name := "osc_a", bit_value := 0, «alias» := none, path := "" },
          { name := "d", bit_value := 1, «alias» := none, path := "" }]
        default := "osc_a"
        path := ""
        is_sys_clk_mux := true }]
    dividers := [
      { name := "d", input := "m", default := 1, values := [], path := "" }]
    multipliers := []
    taps := [
      { name := "t_b", input := "osc_b", max := 0, terminal := true }] }

/-- Failing input for the path-seeding claim: a schematic with two
oscillators and nothing else. -/
def cexC4 : ClockSchematic :=
  { sys_clk_mux := ""
    flash_latency := { path := "", ranges := [] }
    pll := none
    oscillators := [
      { name := "a_osc", frequency := 8000000, external := none },
      { name := "b_osc", frequency := 1000, external := none }]
    multiplexers := []
    dividers := []
    multipliers := []
    taps := [] }

/-- Failing input for the multiplier bit-fit claim: a fully valid chain whose
multiplier option carries `bit_value 15` on the 3-bit catalog field
`timer0.cr.mode`. -/
def schC2 : ClockSchematic :=
  { sys_clk_mux := ""
    flash_latency := { path := "", ranges := [] }
    pll := none
    oscillators := [{ name := "hse", frequency := 8000000, external := none }]
    multiplexers := []
    dividers := []
    multipliers := [
      { name := "pll_mul"
        input := "hse"
        default := 2
        values := [
          { name := "no_mul", factor := 2, bit_value := 15, path := "timer0.cr.mode" }]
        path := "" }]
    taps := [{ name := "tap1", input := "pll_mul", max := 1000000, terminal := true }] }

/-- Catalog for `schC2`: `timer0.cr.mode` is a 3-bit field. -/
def devC2 : DeviceSpec :=
  { fields := [("timer0.cr.mode", { address := 0x40010000, mask := 7, offset := 0, width := 3 })]
    registers := [] }

/-- Catalog for the reset-formula claim: a 2-bit field `rcc.cfgr.sw` at
offset 2 (mask `0b1100`) whose register's reset value is `0b1100` (both field
bits set at reset) with no reset mask recorded. -/
def devC3 : DeviceSpec :=
  { fields := [("rcc.cfgr.sw", { address := 0x40021004, mask := 12, offset := 2, width := 2 })]
    registers := [("rcc.cfgr", { reset_value := some 12, reset_mask := none })] }

/-- Counterexample schematic for the name-validity claim: the oscillator is
named `Hse`, which contains the uppercase letter `H`. -/
def cexC5 : ClockSchematic :=
  { sys_clk_mux := ""
    flash_latency := { path := "", ranges := [] }
    pll := none
    oscillators := [{ name := "Hse", frequency := 8000000, external := none }]
    multiplexers := []
    dividers := []
    multipliers := []
    taps := [{ name := "tap1", input := "Hse", max := 0, terminal := true }] }

/-- Witness schematic with all-lowercase names for the amended name-validity
claim. -/
def schW5 : ClockSchematic :=
  { sys_clk_mux := ""
    flash_latency := { path := "", ranges := [] }
    pll := none
    oscillators := [{ name := "hse", frequency := 8000000, external := none }]
    multiplexers := []
    dividers := []
    multipliers := []
    taps := [{ name := "tap1", input := "hse", max := 0, terminal := true }] }

/-- Counterexample schematic for the unused-outputs message claim: two
oscillators declared in the order `b_osc`, `a_osc`, both unused. -/
def cexC6 : ClockSchematic :=
  { sys_clk_mux := ""
    flash_latency := { path := "", ranges := [] }
    pll := none
    oscillators := [
      { name := "b_osc", frequency := 8000000, external := none },
      { name := "a_osc", frequency := 1000, external := none }]
    multiplexers := []
    dividers := []
    multipliers := []
    taps := [] }

/-- Witness schematic for the amended unused-outputs claim: the oscillator's
output is consumed by a terminal tap. -/
def schW6 : ClockSchematic :=
  { sys_clk_mux := ""
    flash_latency := { path := "", ranges := [] }
    pll := none
    oscillators := [{ name := "hse", frequency := 8000000, external := none }]
    multiplexers := []
    dividers := []
    multipliers := []
    taps := [{ name := "t1", input := "hse", max := 0, terminal := true }] }

/-- Witness schematic for the defaults claim: a multiplexer whose default is
a declared input, a divider in fixed-ratio mode (zero options, exempt), and a
multiplier whose default matches a declared factor. -/
def schW7 : ClockSchematic :=
  { sys_clk_mux := ""
    flash_latency := { path := "", ranges := [] }
    pll := none
    oscillators := [{ name := "hse", frequency := 8000000, external := none }]
    multiplexers := [
      { name := "mx"
        inputs := [{ name := "hse", bit_value := 1, «alias» := none, path := "" }]
        default := "hse"
        path := ""
        is_sys_clk_mux := false }]
    dividers := [
      { name := "dv", input := "mx", default := 3, values := [], path := "" }]
    multipliers := [
      { name := "ml"
        input := "dv"
        default := 2
        values := [{ name := "x2", factor := 2, bit_value := 1, path := "" }]
        path := "" }]
    taps := [{ name := "t1", input := "ml", max := 0, terminal := true }] }

/-- Catalog field for the single-bit witness: width 1. -/
def fld_en : FieldSpec :=
  { address := 0x40000000, mask := 1, offset := 0, width := 1 }

/-- Catalog field for the multi-bit witness: width 3. -/
def fld_mode : FieldSpec :=
  { address := 0x40000000, mask := 7, offset := 0, width := 3 }

/-- Catalog for the single-bit-operation claim's witness. -/
def devW8 : DeviceSpec :=
  { fields := [("tim.cr.en", fld_en), ("tim.cr.mode", fld_mode)]
    registers := [] }

/-- Empty catalog used to exercise lookup failure. -/
def dev_empty : DeviceSpec :=
  { fields := [], registers := [] }

/-- Witness schematic for the fixed-error-message claim: a multiplier option
whose field path `nope.f` (not `bogus.field`) is absent from the catalog. -/
def schW9 : ClockSchematic :=
  { sys_clk_mux := ""
    flash_latency := { path := "", ranges := [] }
    pll := none
    oscillators := [{ name := "hse", frequency := 8000000, external := none }]
    multiplexers := []
    dividers := []
    multipliers := [
      { name := "pll_mul"
        input := "hse"
        default := 2
        values := [{ name := "no_mul", factor := 2, bit_value := 1, path := "nope.f" }]
        path := "" }]
    taps := [{ name := "tap1", input := "pll_mul", max := 0, terminal := true }] }

namespace ClockSchematic

/-- The defaults portion of `ClockSchematic::validate` (`schematic.rs` lines
108-110): multiplexer, then divider, then multiplier default checks, stopping
at the first failure. -/
def defaults_checks (sch : ClockSchematic) : Except String Unit := do
  sch.check_multiplexer_defaults_exist
  sch.check_divider_defaults_exist
  sch.check_multiplier_defaults_exist

end ClockSchematic

theorem mem_insert_sorted {a s : String} {l : List String} :
    a ∈ insert_sorted s l ↔ a = s ∨ a ∈ l := by
  induction l with
  | nil => simp [insert_sorted]
  | cons x xs ih =>
    simp only [insert_sorted]
    split
    · simp
    · simp only [List.mem_cons, ih]
      tauto

theorem mem_sort_strings {a : String} {l : List String} :
    a ∈ sort_strings l ↔ a ∈ l := by
  induction l with
  | nil => simp [sort_strings]
  | cons x xs ih => simp [sort_strings, mem_insert_sorted, ih]

theorem mem_dedup_adjacent {a : String} {l : List String} :
    a ∈ dedup_adjacent l ↔ a ∈ l := by
  induction l using dedup_adjacent.induct with
  | case1 => simp [dedup_adjacent]
  | case2 x => simp [dedup_adjacent]
  | case3 x y rest heq ih =>
    have hxy : x = y := by simpa using heq
    rw [dedup_adjacent, if_pos heq, ih, hxy]
    simp only [List.mem_cons]
    tauto
  | case4 x y rest heq ih =>
    simp only [dedup_adjacent, if_neg heq, List.mem_cons, ih]

theorem mem_list_inputs {a : String} {sch : ClockSchematic} :
    a ∈ sch.list_inputs ↔ a ∈ sch.input_names := by
  simp [ClockSchematic.list_inputs, mem_dedup_adjacent, mem_sort_strings]

theorem unused_outputs_eq_nil_iff (sch : ClockSchematic) :
    sch.unused_outputs = [] ↔
      ∀ o ∈ sch.list_outputs .EverythingExceptTerminalTaps, o ∈ sch.input_names := by
  unfold ClockSchematic.unused_outputs
  rw [List.filter_eq_nil_iff]
  constructor
  · intro h o ho
    have := h o ho
    rw [← mem_list_inputs]
    simpa using this
  · intro h o ho
    have := h o ho
    simp [mem_list_inputs.mpr this]

theorem first_invalid_char_none_iff (name : String) :
    first_invalid_char name = none ↔
      ∀ ch ∈ (to_lowercase name).toList, allowed_chars.contains ch = true := by
  unfold first_invalid_char
  rw [List.find?_eq_none]
  simp

theorem first_invalid_char_some {name : String} {ch : Char}
    (h : first_invalid_char name = some ch) :
    ch ∈ (to_lowercase name).toList ∧ allowed_chars.contains ch = false := by
  unfold first_invalid_char at h
  refine ⟨List.mem_of_find?_eq_some h, ?_⟩
  have := List.find?_some h
  simpa using this

theorem first_invalid_name_none_iff (names : List String) :
    first_invalid_name names = none ↔
      ∀ n ∈ names, ∀ ch ∈ (to_lowercase n).toList, allowed_chars.contains ch = true := by
  induction names with
  | nil => simp [first_invalid_name]
  | cons n rest ih =>
    unfold first_invalid_name
    cases hfc : first_invalid_char n with
    | some ch =>
      simp only
      constructor
      · intro h; cases h
      · intro hall
        have hnone := (first_invalid_char_none_iff n).mpr (hall n (by simp))
        rw [hfc] at hnone; cases hnone
    | none =>
      simp only [ih]
      constructor
      · intro h m hm
        rcases List.mem_cons.mp hm with rfl | hm'
        · exact (first_invalid_char_none_iff m).mp hfc
        · exact h m hm'
      · intro h m hm
        exact h m (List.mem_cons_of_mem _ hm)

theorem first_invalid_name_some {names : List String} {n : String} {ch : Char}
    (h : first_invalid_name names = some (n, ch)) :
    n ∈ names ∧ ch ∈ (to_lowercase n).toList ∧ allowed_chars.contains ch = false := by
  induction names with
  | nil => cases h
  | cons m rest ih =>
    unfold first_invalid_name at h
    cases hfc : first_invalid_char m with
    | some c =>
      rw [hfc] at h
      simp only [Option.some.injEq, Prod.mk.injEq] at h
      obtain ⟨rfl, rfl⟩ := h
      exact ⟨List.mem_cons_self _ _, first_invalid_char_some hfc⟩
    | none =>
      rw [hfc] at h
      have := ih h
      exact ⟨List.mem_cons_of_mem _ this.1, this.2⟩

theorem mux_bads_nil_iff (sch : ClockSchematic) :
    sch.multiplexers_with_bad_defaults = [] ↔
      ∀ m ∈ sch.multiplexers, ∃ i ∈ m.inputs, i.name = m.default := by
  unfold ClockSchematic.multiplexers_with_bad_defaults
  rw [List.map_eq_nil_iff, List.filter_eq_nil_iff]
  simp [List.any_eq_true]

theorem div_bads_nil_iff (sch : ClockSchematic) :
    sch.dividers_with_bad_defaults = [] ↔
      ∀ d ∈ sch.dividers, d.values ≠ [] → ∃ v ∈ d.values, v.divisor = d.default := by
  unfold ClockSchematic.dividers_with_bad_defaults
  rw [List.map_eq_nil_iff, List.filter_eq_nil_iff]
  constructor
  · intro h d hd hne
    have hmem : d ∈ sch.dividers.filter (fun d => decide (d.values.length > 0)) := by
      rw [List.mem_filter]
      refine ⟨hd, by simpa [List.length_pos] using hne⟩
    have := h d hmem
    simpa [List.any_eq_true] using this
  · intro h d hd
    rw [List.mem_filter] at hd
    have hne : d.values ≠ [] := by
      have h2 := hd.2
      simp only [decide_eq_true_eq, List.length_pos] at h2
      exact h2
    have := h d hd.1 hne
    simpa [List.any_eq_true] using this

theorem mul_bads_nil_iff (sch : ClockSchematic) :
    sch.multipliers_with_bad_defaults = [] ↔
      ∀ m ∈ sch.multipliers, m.values ≠ [] → ∃ v ∈ m.values, v.factor = m.default := by
  unfold ClockSchematic.multipliers_with_bad_defaults
  rw [List.map_eq_nil_iff, List.filter_eq_nil_iff]
  constructor
  · intro h m hm hne
    have hmem : m ∈ sch.multipliers.filter (fun m => decide (m.values.length > 0)) := by
      rw [List.mem_filter]
      refine ⟨hm, by simpa [List.length_pos] using hne⟩
    have := h m hmem
    simpa [List.any_eq_true] using this
  · intro h m hm
    rw [List.mem_filter] at hm
    have hne : m.values ≠ [] := by
      have h2 := hm.2
      simp only [decide_eq_true_eq, List.length_pos] at h2
      exact h2
    have := h m hm.1 hne
    simpa [List.any_eq_true] using this

theorem mux_check_ok (sch : ClockSchematic) (h : sch.multiplexers_with_bad_defaults = []) :
    sch.check_multiplexer_defaults_exist = Except.ok () := by
  unfold ClockSchematic.check_multiplexer_defaults_exist
  rw [h]
  rfl

theorem mux_check_err (sch : ClockSchematic) (h : sch.multiplexers_with_bad_defaults ≠ []) :
    sch.check_multiplexer_defaults_exist = Except.error
      ("Multiplexers have default inputs not in their input lists: "
        ++ String.intercalate ", " sch.multiplexers_with_bad_defaults) := by
  unfold ClockSchematic.check_multiplexer_defaults_exist
  rw [if_pos (List.length_pos.mpr h)]

theorem div_check_ok (sch : ClockSchematic) (h : sch.dividers_with_bad_defaults = []) :
    sch.check_divider_defaults_exist = Except.ok () := by
  unfold ClockSchematic.check_divider_defaults_exist
  rw [h]
  rfl

theorem div_check_err (sch : ClockSchematic) (h : sch.dividers_with_bad_defaults ≠ []) :
    sch.check_divider_defaults_exist = Except.error
      ("Dividers have default values not in their value lists: "
        ++ String.intercalate ", " sch.dividers_with_bad_defaults) := by
  unfold ClockSchematic.check_divider_defaults_exist
  rw [if_pos (List.length_pos.mpr h)]

theorem mul_check_ok (sch : ClockSchematic) (h : sch.multipliers_with_bad_defaults = []) :
    sch.check_multiplier_defaults_exist = Except.ok () := by
  unfold ClockSchematic.check_multiplier_defaults_exist
  rw [h]
  rfl

theorem mul_check_err (sch : ClockSchematic) (h : sch.multipliers_with_bad_defaults ≠ []) :
    sch.check_multiplier_defaults_exist = Except.error
      ("Multipliers have default values not in their value lists: "
        ++ String.intercalate ", " sch.multipliers_with_bad_defaults) := by
  unfold ClockSchematic.check_multiplier_defaults_exist
  rw [if_pos (List.length_pos.mpr h)]

theorem check_paths_loop_error (dev : DeviceSpec) (paths : List String) (msg : String)
    (h : ClockGenerator.check_paths_loop dev paths = Except.error msg) :
    msg = no_field_msg := by
  induction paths with
  | nil => cases h
  | cons p rest ih =>
    unfold ClockGenerator.check_paths_loop at h
    cases hf : dev.try_get_field p with
    | none =>
      rw [hf] at h
      simpa using h.symm
    | some fs =>
      rw [hf] at h
      exact ih h

/-- C1: the claim says that for every schematic passing the earlier checks
whose non-sentinel input relation contains a directed cycle, validation fails
with a GraphError naming the cycle. It is false: `cexC1` passes the whole
battery (`validate` succeeds) although its input relation contains the cycle
`m -> d -> m`. The seed of `get_paths` is a single path holding every
oscillator name, and paths only extend from their last element, so a cycle
reachable only from a non-final oscillator is never traversed. -/
theorem C1_cycle_unreported :
    cexC1.validate = Except.ok () ∧ is_cycle cexC1 ["m", "d", "m"] = true := ⟨rfl, rfl⟩

/-- C2: the claim says the bit-fit check is applied to every multiplier
option. It is false on the code: `schC2` is a fully valid schematic whose
multiplier option carries `bit_value 15` on the 3-bit catalog field
`timer0.cr.mode`, yet both the schematic battery and the generator's checks
succeed, because the Multiplier match arm of
`check_valid_field_input_sizes` sits after a wildcard arm and is
unreachable. The third conjunct shows the bit-fit mechanism itself would
reject this very value with the spec's exact SizeError message. -/
theorem C2_multiplier_bit_fit_unchecked :
    schC2.validate = Except.ok () ∧
    ClockGenerator.validate devC2 schC2 = Except.ok () ∧
    ClockGenerator.check_valid_input_size devC2 "timer0.cr.mode" 15 "pll_mul" =
      Except.error "Bit value '15' does not fit in 3-bit field 'timer0.cr.mode' (pll_mul)" :=
  ⟨rfl, rfl, rfl⟩

/-- C3: the claim says `Reset` writes `((reset_mask & reset_value) & mask)
>> offset`. The code instead computes `reset_mask & reset_value & mask >>
offset`, where Rust shifts before masking, i.e.
`(reset_mask & reset_value) & (mask >> offset)`. On the field `rcc.cfgr.sw`
(mask `0b1100`, offset 2, register reset value `0b1100`, reset mask absent
hence all-ones) the code writes 0 while the claim's formula gives 3. -/
theorem C3_reset_written_value :
    devC3.reset "rcc.cfgr.sw" false =
      PanicOr.ok "write_val(0x40021004, 0b00000000000000000000000000001100, 2, 0) /* Reset rcc.cfgr.sw */" ∧
    reset_value_expr u32_max 12 12 2 = 0 ∧
    spec_reset_written_value u32_max 12 12 2 = 3 :=
  ⟨rfl, by decide, by decide⟩

/-- C4: the claim says `get_paths` starts from one single-element path per
oscillator, so every produced path begins with a single oscillator name. It
is false: on the two-oscillator schematic `cexC4` the seed (and the result)
is the single path `[a_osc, b_osc]`, although `b_osc` is not a successor of
`a_osc` (`get_next` of `a_osc` is empty). The code's own comment says each
oscillator starts a path; `vec![keys().collect()]` builds one path holding
all of them. The 32-iteration extension bound itself is as claimed. -/
theorem C4_get_paths_seed :
    cexC4.get_paths = [["a_osc", "b_osc"]] ∧ cexC4.get_next "a_osc" = [] := ⟨rfl, rfl⟩

/-- C5 counterexample: the claim says any name containing a character outside
lowercase/digit/underscore — including an uppercase letter — is rejected. On
`cexC5` the oscillator is named `Hse`, whose character `H` is outside the
permitted set, yet `check_valid_names` accepts the schematic, because the
source lowercases each name before checking its characters. -/
theorem C5_uppercase_accepted :
    cexC5.check_valid_names = Except.ok () ∧
    "Hse" ∈ cexC5.list_inputs ++ cexC5.list_outputs .Everything ∧
    'H' ∈ "Hse".toList ∧
    allowed_chars.contains 'H' = false :=
  ⟨rfl, by decide, by decide, by decide⟩

/-- C5 (amended): name validation accepts a schematic exactly when every
character of every input and output name's LOWERCASED form lies in the
permitted set (so uppercase letters are accepted); on rejection the error
names the offending (original) name and the offending character of its
lowercased form. -/
theorem C5_name_validation_amended (sch : ClockSchematic) :
    (sch.check_valid_names = Except.ok () ↔
      ∀ name ∈ sch.list_inputs ++ sch.list_outputs .Everything,
        ∀ ch ∈ (to_lowercase name).toList, allowed_chars.contains ch = true) ∧
    ∀ msg, sch.check_valid_names = Except.error msg →
      ∃ name ∈ sch.list_inputs ++ sch.list_outputs .Everything,
        ∃ ch ∈ (to_lowercase name).toList,
          allowed_chars.contains ch = false ∧ msg = name_error name ch := by
  unfold ClockSchematic.check_valid_names
  cases hf : first_invalid_name (sch.list_inputs ++ sch.list_outputs .Everything) with
  | some pair =>
    obtain ⟨n, c⟩ := pair
    constructor
    · constructor
      · intro h; cases h
      · intro hall
        have hnone := (first_invalid_name_none_iff _).mpr hall
        rw [hf] at hnone; cases hnone
    · intro msg hmsg
      obtain ⟨hmem, hch, hcontains⟩ := first_invalid_name_some hf
      exact ⟨n, hmem, c, hch, hcontains, by simpa using hmsg.symm⟩
  | none =>
    constructor
    · exact iff_of_true rfl ((first_invalid_name_none_iff _).mp hf)
    · intro msg hmsg; cases hmsg

/-- C5 witness: the amended theorem applied to the all-lowercase schematic
`schW5`. -/
theorem C5_name_validation_amended_witness : schW5.check_valid_names = Except.ok () :=
  (C5_name_validation_amended schW5).1.mpr (by decide)

/-- C6 counterexample: the claim says the unused-outputs error lists the
names sorted (and de-duplicated). On `cexC6`, whose oscillators are declared
in the order `b_osc`, `a_osc`, the emitted message lists `b_osc, a_osc` —
map-iteration order, not the sorted order `a_osc, b_osc`. -/
theorem C6_unsorted_error_message :
    cexC6.check_all_outputs_are_used =
      Except.error "Unused outputs: b_osc, a_osc (maybe these are non-terminal taps?)" ∧
    cexC6.unused_outputs = ["b_osc", "a_osc"] ∧
    sort_strings ["b_osc", "a_osc"] = ["a_osc", "b_osc"] ∧
    ("Unused outputs: b_osc, a_osc (maybe these are non-terminal taps?)" : String) ≠
      "Unused outputs: a_osc, b_osc (maybe these are non-terminal taps?)" :=
  ⟨rfl, rfl, rfl, by decide⟩

/-- C6 (amended): the all-outputs-used check fails exactly when some
non-terminal output (terminal taps exempt) appears in no component's input
set, and the error lists the unused outputs in output-enumeration order
(oscillators, multiplexers, dividers, multipliers, non-terminal taps) — not
sorted; the source applies no sort or dedup to this list (duplicates cannot
survive the earlier duplicate-name check in the battery). -/
theorem C6_unused_outputs_amended (sch : ClockSchematic) :
    (sch.check_all_outputs_are_used = Except.ok () ↔
      ∀ o ∈ sch.list_outputs .EverythingExceptTerminalTaps, o ∈ sch.input_names) ∧
    ∀ msg, sch.check_all_outputs_are_used = Except.error msg →
      sch.unused_outputs ≠ [] ∧
      msg = "Unused outputs: " ++ String.intercalate ", " sch.unused_outputs
        ++ " (maybe these are non-terminal taps?)" := by
  constructor
  · rw [← unused_outputs_eq_nil_iff]
    unfold ClockSchematic.check_all_outputs_are_used
    by_cases hp : sch.unused_outputs.length > 0
    · rw [if_pos hp]
      constructor
      · intro h; cases h
      · intro hnil; rw [hnil] at hp; simp at hp
    · rw [if_neg hp]
      simp only [Nat.not_lt, Nat.le_zero, List.length_eq_zero] at hp
      simp [hp]
  · intro msg hmsg
    unfold ClockSchematic.check_all_outputs_are_used at hmsg
    by_cases hp : sch.unused_outputs.length > 0
    · rw [if_pos hp] at hmsg
      refine ⟨?_, ?_⟩
      · intro hnil; rw [hnil] at hp; simp at hp
      · exact (by simpa using hmsg.symm)
    · rw [if_neg hp] at hmsg; cases hmsg

/-- C6 witness: the amended theorem applied to `schW6`, whose only
non-terminal output is consumed. -/
theorem C6_unused_outputs_amended_witness :
    schW6.check_all_outputs_are_used = Except.ok () :=
  (C6_unused_outputs_amended schW6).1.mpr (by decide)

/-- C7: validation of defaults (the three checks run in battery order)
succeeds exactly when every multiplexer's default is a declared input name
and every divider/multiplier with at least one option has a default matching
some option's divisor/factor — zero-option dividers and multipliers are
exempt; on failure the error message names exactly the offending components
of the first failing kind. -/
theorem C7_defaults_validation (sch : ClockSchematic) :
    (sch.defaults_checks = Except.ok () ↔
      ((∀ m ∈ sch.multiplexers, ∃ i ∈ m.inputs, i.name = m.default) ∧
       (∀ d ∈ sch.dividers, d.values ≠ [] → ∃ v ∈ d.values, v.divisor = d.default) ∧
       (∀ m ∈ sch.multipliers, m.values ≠ [] → ∃ v ∈ m.values, v.factor = m.default))) ∧
    ∀ msg, sch.defaults_checks = Except.error msg →
      (sch.multiplexers_with_bad_defaults ≠ [] ∧
        msg = "Multiplexers have default inputs not in their input lists: "
          ++ String.intercalate ", " sch.multiplexers_with_bad_defaults) ∨
      (sch.multiplexers_with_bad_defaults = [] ∧ sch.dividers_with_bad_defaults ≠ [] ∧
        msg = "Dividers have default values not in their value lists: "
          ++ String.intercalate ", " sch.dividers_with_bad_defaults) ∨
      (sch.multiplexers_with_bad_defaults = [] ∧ sch.dividers_with_bad_defaults = [] ∧
        sch.multipliers_with_bad_defaults ≠ [] ∧
        msg = "Multipliers have default values not in their value lists: "
          ++ String.intercalate ", " sch.multipliers_with_bad_defaults) := by
  constructor
  · rw [← mux_bads_nil_iff, ← div_bads_nil_iff, ← mul_bads_nil_iff]
    by_cases h1 : sch.multiplexers_with_bad_defaults = []
    · by_cases h2 : sch.dividers_with_bad_defaults = []
      · by_cases h3 : sch.multipliers_with_bad_defaults = []
        · simp [ClockSchematic.defaults_checks, mux_check_ok sch h1, div_check_ok sch h2,
            mul_check_ok sch h3, Bind.bind, Except.bind, h1, h2, h3]
        · simp [ClockSchematic.defaults_checks, mux_check_ok sch h1, div_check_ok sch h2,
            mul_check_err sch h3, Bind.bind, Except.bind, h3]
      · simp [ClockSchematic.defaults_checks, mux_check_ok sch h1, div_check_err sch h2,
          Bind.bind, Except.bind, h2]
    · simp [ClockSchematic.defaults_checks, mux_check_err sch h1, Bind.bind, Except.bind, h1]
  · intro msg hmsg
    by_cases h1 : sch.multiplexers_with_bad_defaults = []
    · by_cases h2 : sch.dividers_with_bad_defaults = []
      · by_cases h3 : sch.multipliers_with_bad_defaults = []
        · rw [show sch.defaults_checks = Except.ok () from by
            simp [ClockSchematic.defaults_checks, mux_check_ok sch h1, div_check_ok sch h2,
              mul_check_ok sch h3, Bind.bind, Except.bind]] at hmsg
          cases hmsg
        · refine Or.inr (Or.inr ⟨h1, h2, h3, ?_⟩)
          rw [show sch.defaults_checks = Except.error
              ("Multipliers have default values not in their value lists: "
                ++ String.intercalate ", " sch.multipliers_with_bad_defaults) from by
            simp [ClockSchematic.defaults_checks, mux_check_ok sch h1, div_check_ok sch h2,
              mul_check_err sch h3, Bind.bind, Except.bind]] at hmsg
          exact (by simpa using hmsg.symm)
      · refine Or.inr (Or.inl ⟨h1, h2, ?_⟩)
        rw [show sch.defaults_checks = Except.error
            ("Dividers have default values not in their value lists: "
              ++ String.intercalate ", " sch.dividers_with_bad_defaults) from by
          simp [ClockSchematic.defaults_checks, mux_check_ok sch h1, div_check_err sch h2,
            Bind.bind, Except.bind]] at hmsg
        exact (by simpa using hmsg.symm)
    · refine Or.inl ⟨h1, ?_⟩
      rw [show sch.defaults_checks = Except.error
          ("Multiplexers have default inputs not in their input lists: "
            ++ String.intercalate ", " sch.multiplexers_with_bad_defaults) from by
        simp [ClockSchematic.defaults_checks, mux_check_err sch h1, Bind.bind, Except.bind]] at hmsg
      exact (by simpa using hmsg.symm)

/-- C7 witness: the defaults battery succeeds on `schW7`, whose multiplexer
default matches an input, whose divider is in fixed-ratio mode (zero
options), and whose multiplier default matches a declared factor. -/
theorem C7_defaults_validation_witness : schW7.defaults_checks = Except.ok () :=
  (C7_defaults_validation schW7).1.mpr (by decide)

/-- C8: for a field found in the catalog, `set_bit` and `clear_bit` succeed
exactly when the field's width is 1, producing the set_bit/clear_bit
instruction for the field's address and mask; on any other width both
operations end in a reported failure (a panic carrying the usage message),
never a silently truncated instruction. -/
theorem C8_single_bit_ops (dev : DeviceSpec) (path : String) (interrupt_free : Bool)
    (f : FieldSpec) (h : dev.get_field path = some f) :
    (f.width = 1 →
      dev.set_bit path interrupt_free =
        PanicOr.ok ("set_bit" ++ itf interrupt_free ++ "(" ++ fmt_hex32 f.address ++ ", "
          ++ fmt_bin32 f.mask ++ ") /* Set " ++ path ++ " */") ∧
      dev.clear_bit path interrupt_free =
        PanicOr.ok ("clear_bit" ++ itf interrupt_free ++ "(" ++ fmt_hex32 f.address ++ ", "
          ++ fmt_bin32 f.mask ++ ") /* Clear " ++ path ++ " */")) ∧
    (f.width ≠ 1 →
      dev.set_bit path interrupt_free =
        PanicOr.panicked "Cannot set single bit for a multi-bit field" ∧
      dev.clear_bit path interrupt_free =
        PanicOr.panicked "Cannot clear single bit for a multi-bit field") := by
  unfold DeviceSpec.set_bit DeviceSpec.clear_bit
  rw [h]
  constructor
  · intro hw
    simp [hw]
  · intro hw
    simp [hw]

/-- C8 witness: the theorem applied to a width-1 field (instruction emitted)
and to a width-3 field (reported failure). -/
theorem C8_single_bit_ops_witness :
    devW8.set_bit "tim.cr.en" false =
      PanicOr.ok ("set_bit" ++ itf false ++ "(" ++ fmt_hex32 fld_en.address ++ ", "
        ++ fmt_bin32 fld_en.mask ++ ") /* Set " ++ "tim.cr.en" ++ " */") ∧
    devW8.clear_bit "tim.cr.mode" false =
      PanicOr.panicked "Cannot clear single bit for a multi-bit field" :=
  ⟨((C8_single_bit_ops devW8 "tim.cr.en" false fld_en rfl).1 rfl).1,
   ((C8_single_bit_ops devW8 "tim.cr.mode" false fld_mode rfl).2 (by decide)).2⟩

/-- C9: whenever the field-path existence check fails, the error message is
the fixed string naming `bogus.field`, regardless of which path is actually
missing — so for any missing path other than `bogus.field` the diagnostic
misidentifies the field. -/
theorem C9_fixed_lookup_error_message (dev : DeviceSpec) (sch : ClockSchematic)
    (msg : String)
    (h : ClockGenerator.check_valid_field_paths dev sch = Except.error msg) :
    msg = no_field_msg :=
  check_paths_loop_error dev (ClockGenerator.input_paths sch) msg h

/-- C9 witness: on the empty catalog, `schW9` (whose multiplier option path
is `nope.f`, not `bogus.field`) fails with exactly the fixed message. -/
theorem C9_fixed_lookup_error_message_witness :
    ClockGenerator.check_valid_field_paths dev_empty schW9 =
      Except.error "No field named 'bogus.field' in SVD spec" ∧
    "No field named 'bogus.field' in SVD spec" = no_field_msg :=
  ⟨rfl, C9_fixed_lookup_error_message dev_empty schW9
    "No field named 'bogus.field' in SVD spec" rfl⟩

/-- C10: every field-instruction operation of the ReadWrite interface panics
(the unwrapped catalog lookup) when the path names no field in the catalog;
none of the eleven operations returns the lookup failure as an error value —
the return type carries no error channel. -/
theorem C10_lookup_failure_panics (dev : DeviceSpec) (path expr : String)
    (max_loops : Nat) (interrupt_free : Bool) (h : dev.get_field path = none) :
    dev.write_val path expr interrupt_free = PanicOr.panicked unwrap_none_msg ∧
    dev.write_bit path expr interrupt_free = PanicOr.panicked unwrap_none_msg ∧
    dev.reset path interrupt_free = PanicOr.panicked unwrap_none_msg ∧
    dev.set_bit path interrupt_free = PanicOr.panicked unwrap_none_msg ∧
    dev.clear_bit path interrupt_free = PanicOr.panicked unwrap_none_msg ∧
    dev.read_val path = PanicOr.panicked unwrap_none_msg ∧
    dev.is_set path = PanicOr.panicked unwrap_none_msg ∧
    dev.is_clear path = PanicOr.panicked unwrap_none_msg ∧
    dev.wait_for_val path expr max_loops interrupt_free = PanicOr.panicked unwrap_none_msg ∧
    dev.wait_for_clear path max_loops interrupt_free = PanicOr.panicked unwrap_none_msg ∧
    dev.wait_for_set path max_loops interrupt_free = PanicOr.panicked unwrap_none_msg := by
  unfold DeviceSpec.write_val DeviceSpec.write_bit DeviceSpec.reset DeviceSpec.set_bit
    DeviceSpec.clear_bit DeviceSpec.read_val DeviceSpec.is_set DeviceSpec.is_clear
    DeviceSpec.wait_for_val DeviceSpec.wait_for_clear DeviceSpec.wait_for_set
  rw [h]
  exact ⟨rfl, rfl, rfl, rfl, rfl, rfl, rfl, rfl, rfl, rfl, rfl⟩

/-- C10 witness: the theorem applied to the empty catalog at the path
`a.b.c`. -/
theorem C10_lookup_failure_panics_witness :
    dev_empty.write_val "a.b.c" "x" true = PanicOr.panicked unwrap_none_msg ∧
    dev_empty.write_bit "a.b.c" "x" true = PanicOr.panicked unwrap_none_msg ∧
    dev_empty.reset "a.b.c" true = PanicOr.panicked unwrap_none_msg ∧
    dev_empty.set_bit "a.b.c" true = PanicOr.panicked unwrap_none_msg ∧
    dev_empty.clear_bit "a.b.c" true = PanicOr.panicked unwrap_none_msg ∧
    dev_empty.read_val "a.b.c" = PanicOr.panicked unwrap_none_msg ∧
    dev_empty.is_set "a.b.c" = PanicOr.panicked unwrap_none_msg ∧
    dev_empty.is_clear "a.b.c" = PanicOr.panicked unwrap_none_msg ∧
    dev_empty.wait_for_val "a.b.c" "x" 1000 true = PanicOr.panicked unwrap_none_msg ∧
    dev_empty.wait_for_clear "a.b.c" 1000 true = PanicOr.panicked unwrap_none_msg ∧
    dev_empty.wait_for_set "a.b.c" 1000 true = PanicOr.panicked unwrap_none_msg :=
  C10_lookup_failure_panics dev_empty "a.b.c" "x" 1000 true rfl
